import Mathlib

/-!
Shallow embedding of the Kairos RSS triage core (src/app of ApthNZ/kairos)
for verification of its natural-language specification.

Conventions of the embedding:
* Python strings are Lean `String`s; Python slicing `s[:n]` becomes
  `String.mk (s.data.take n)`, `len(s)` becomes `s.length`.
* The SQLite tables are Lean lists of records kept in insertion order;
  auto-increment ids and `created_at` timestamps are carried explicitly.
* Network and clock effects are explicit parameters: the outcome of an HTTP
  send is an oracle argument, the current time is a `Nat` argument, and the
  sequence of outbound network operations a function performs is returned as
  an explicit event trace.
* Python exceptions raised to the caller become `Except`; exceptions that the
  source catches internally (for example the duplicate-guid IntegrityError in
  `add_item`) are rendered as the branch the handler takes.
-/

namespace Kairos

/-- Application settings from `config.py` (class `Settings`), restricted to the
fields the webhook and feed paths read. Defaults mirror the source. -/
structure Settings where
  FEED_TIMEOUT_SECONDS : Nat := 30
  MAX_ITEMS_PER_FEED : Nat := 50
  WEBHOOK_URL : Option String := none
  WEBHOOK_TIMEOUT_SECONDS : Nat := 10
  WEBHOOK_RETRY_COUNT : Nat := 3
  deriving Repr, DecidableEq

/-- Discord-formatted notification payload built by `queue_webhook` in
`webhook_handler.py`: one embed with title, url, description, a fixed color,
two fields (Source = feed name, Triaged By = acting identity), a fixed footer
text, and a timestamp. `json.dumps` at enqueue time and `json.loads` at send
time are modelled as the identity round-trip, so the job stores this record
directly. -/
structure DiscordPayload where
  title : String
  url : String
  description : String
  color : Nat := 15158332
  sourceName : Option String
  triagedBy : String
  footerText : String := "Kairos Threat Intelligence"
  timestamp : Nat
  deriving Repr, DecidableEq

/-- Row of the `webhook_queue` table from `database.py` `init_db`: columns
id, item_id, payload, attempts (default 0), last_attempt, status (default
'pending'), error_message, created_at. -/
structure WebhookJob where
  id : Nat
  itemId : Nat
  payload : DiscordPayload
  attempts : Nat := 0
  lastAttempt : Option Nat := none
  status : String := "pending"
  errorMessage : Option String := none
  createdAt : Nat
  deriving Repr, DecidableEq

/-- Outcome of one `httpx` POST of a webhook payload, matching the exception
cases distinguished by `send_webhook`: success (2xx after
`raise_for_status`), `httpx.TimeoutException`, `httpx.HTTPStatusError` with a
status code and body text, or any other exception with its message. -/
inductive SendOutcome where
  | success
  | timeout
  | httpError (statusCode : Nat) (bodyText : String)
  | otherError (msg : String)
  deriving Repr, DecidableEq

/-- Outbound network operations and URL-validation calls, recorded as an
event trace by the embedded fetch and send functions. `get` carries the
`follow_redirects` flag passed to `httpx.AsyncClient.get`. -/
inductive NetEvent where
  | validateCall (url : String) (purpose : String)
  | get (url : String) (timeoutSeconds : Nat) (followRedirects : Bool)
  | post (url : String) (timeoutSeconds : Nat)
  deriving Repr, DecidableEq

/-- Python slice `s[:n]`. -/
def pySlice (s : String) (n : Nat) : String := String.mk (s.data.take n)

/-- Database function `update_webhook_status(webhook_id, status, error_message)`:
`UPDATE webhook_queue SET status = ?, attempts = attempts + 1, last_attempt = ?,
error_message = ? WHERE id = ?`. `now` is `datetime.utcnow()`. -/
def update_webhook_status (queue : List WebhookJob) (webhook_id : Nat)
    (status : String) (error_message : Option String) (now : Nat) :
    List WebhookJob :=
  queue.map fun j =>
    if j.id = webhook_id then
      { j with status := status, attempts := j.attempts + 1,
               lastAttempt := some now, errorMessage := error_message }
    else j

/-- Insertion of a job into a list held in ascending `createdAt` order,
used to realize the SQL `ORDER BY created_at ASC`. -/
def insertByCreatedAt (j : WebhookJob) : List WebhookJob → List WebhookJob
  | [] => [j]
  | k :: ks =>
      if j.createdAt ≤ k.createdAt then j :: k :: ks
      else k :: insertByCreatedAt j ks

/-- Sort by ascending `createdAt` (insertion sort), realizing
`ORDER BY created_at ASC`. -/
def sortByCreatedAt (queue : List WebhookJob) : List WebhookJob :=
  queue.foldr insertByCreatedAt []

/-- Database function `get_pending_webhooks(limit)`: `SELECT * FROM
webhook_queue WHERE status = 'pending' AND attempts < 3 ORDER BY created_at
ASC LIMIT ?`. The bound 3 on attempts is a literal in the SQL text. -/
def get_pending_webhooks (queue : List WebhookJob) (limit : Nat) :
    List WebhookJob :=
  (sortByCreatedAt (queue.filter fun j =>
    j.status = "pending" ∧ j.attempts < 3)).take limit

/-- Transcribed from the spec's delivery-eligibility sentence, for comparison
with `get_pending_webhooks`: status pending and attempt count strictly below
the configured maximum (`WEBHOOK_RETRY_COUNT`), ordered by creation time
ascending, limited. -/
def get_pending_webhooks_specModel (cfg : Settings) (queue : List WebhookJob)
    (limit : Nat) : List WebhookJob :=
  (sortByCreatedAt (queue.filter fun j =>
    j.status = "pending" ∧ j.attempts < cfg.WEBHOOK_RETRY_COUNT)).take limit

/-- Webhook handler `send_webhook(webhook_id, payload, attempts)` from
`webhook_handler.py`. If no `WEBHOOK_URL` is configured the job is marked
`skipped` and `False` is returned without any network call; otherwise (after a
backoff sleep, not modelled since it does not change state) the payload is
POSTed and the outcome decides between marking `sent` (returning `True`) and
marking `pending` with an error message (returning `False`). The outcome of
the POST is supplied by the `outcome` oracle. Returns the updated queue, the
boolean result, and the trace of network events. -/
def send_webhook (cfg : Settings) (outcome : SendOutcome)
    (queue : List WebhookJob) (webhook_id : Nat) (attempts : Nat)
    (now : Nat) : List WebhookJob × Bool × List NetEvent :=
  match cfg.WEBHOOK_URL with
  | none =>
      (update_webhook_status queue webhook_id "skipped"
        (some "WEBHOOK_URL not configured") now, false, [])
  | some url =>
      let _backoffDelay := if attempts > 0 then 2 ^ (attempts - 1) else 0
      let events := [NetEvent.post url cfg.WEBHOOK_TIMEOUT_SECONDS]
      match outcome with
      | .success =>
          (update_webhook_status queue webhook_id "sent" none now, true, events)
      | .timeout =>
          (update_webhook_status queue webhook_id "pending"
            (some ("Timeout after " ++ toString cfg.WEBHOOK_TIMEOUT_SECONDS ++ "s"))
            now, false, events)
      | .httpError code body =>
          (update_webhook_status queue webhook_id "pending"
            (some ("HTTP " ++ toString code ++ ": " ++ pySlice body 200))
            now, false, events)
      | .otherError msg =>
          (update_webhook_status queue webhook_id "pending"
            (some (pySlice msg 500)) now, false, events)

/-- Aggregate result of `process_webhook_queue`. -/
structure DrainResult where
  processed : Nat
  successful : Nat
  failed : Nat
  retry_pending : Nat
  deriving Repr, DecidableEq

/-- Body of the `for webhook in pending` loop of `process_webhook_queue`,
folded over the pulled batch. The attempt count passed to `send_webhook` and
compared against `WEBHOOK_RETRY_COUNT` is the one read when the batch was
pulled, not the current row value. -/
def drainStep (cfg : Settings) (outcome : Nat → Nat → SendOutcome) (now : Nat)
    (acc : List WebhookJob × Nat × Nat × Nat) (webhook : WebhookJob) :
    List WebhookJob × Nat × Nat × Nat :=
  let (queue, successful, failed, retry_pending) := acc
  let attempts := webhook.attempts
  let (queue1, success, _) :=
    send_webhook cfg (outcome webhook.id attempts) queue webhook.id attempts now
  if success then
    (queue1, successful + 1, failed, retry_pending)
  else if attempts + 1 ≥ cfg.WEBHOOK_RETRY_COUNT then
    (update_webhook_status queue1 webhook.id "failed"
      (some "Max retries exceeded") now, successful, failed + 1, retry_pending)
  else
    (queue1, successful, failed, retry_pending + 1)

/-- Webhook handler `process_webhook_queue()`: pulls up to 20 pending jobs via
`get_pending_webhooks`, processes them sequentially in pulled order via
`send_webhook`, and on each failure marks the job `failed` when the batch-read
attempt count plus one has reached `WEBHOOK_RETRY_COUNT`. The delivery
outcome of job `i` at batch-read attempt count `a` is `outcome i a`. -/
def process_webhook_queue (cfg : Settings) (outcome : Nat → Nat → SendOutcome)
    (queue : List WebhookJob) (now : Nat) : List WebhookJob × DrainResult :=
  let pending := get_pending_webhooks queue 20
  match pending with
  | [] => (queue, ⟨0, 0, 0, 0⟩)
  | _ =>
      let (queue', successful, failed, retry_pending) :=
        pending.foldl (drainStep cfg outcome now) (queue, 0, 0, 0)
      (queue', ⟨pending.length, successful, failed, retry_pending⟩)

/-- Row of the `feeds` table restricted to the columns the fetch path reads,
plus the fetch-status columns it writes. `name` is nullable. -/
structure Feed where
  id : Nat
  url : String
  name : Option String := none
  lastFetched : Option Nat := none
  lastError : Option String := none
  deriving Repr, DecidableEq

/-- Row of the `items` table: columns id, feed_id, guid (UNIQUE), title, url,
summary, published_date, status (default 'pending'), triaged_at, triaged_by. -/
structure Item where
  id : Nat
  feedId : Nat
  guid : String
  title : String
  url : String
  summary : String
  publishedDate : Option Nat := none
  status : String := "pending"
  triagedAt : Option Nat := none
  triagedBy : Option String := none
  deriving Repr, DecidableEq

/-- Database state threaded through the embedded operations: the feeds, items
and webhook_queue tables in insertion order, together with the auto-increment
counters and a monotone clock supplying `created_at` values. -/
structure Db where
  feeds : List Feed := []
  items : List Item := []
  nextItemId : Nat := 1
  webhookQueue : List WebhookJob := []
  nextWebhookId : Nat := 1
  nextCreatedAt : Nat := 0
  deriving Repr, DecidableEq

/-- Python `a or b` on a nullable string `a`: `b` when `a` is `None` or empty. -/
def pyOr (a : Option String) (b : String) : String :=
  match a with
  | some s => if s = "" then b else s
  | none => b

/-- Database function `update_feed_status(feed_id, last_fetched, error)`. -/
def update_feed_status (db : Db) (feed_id : Nat) (last_fetched : Nat)
    (error : Option String) : Db :=
  { db with feeds := db.feeds.map fun f =>
      if f.id = feed_id then
        { f with lastFetched := some last_fetched, lastError := error }
      else f }

/-- Database function `add_item(feed_id, guid, title, url, summary,
published_date)`: an `INSERT` whose duplicate-guid `IntegrityError` (UNIQUE
constraint on guid) is caught and rendered as returning `none` with the table
unchanged; on success the new row id is returned. -/
def add_item (db : Db) (feed_id : Nat) (guid : String) (title : String)
    (url : String) (summary : String) (published_date : Option Nat) :
    Db × Option Nat :=
  if db.items.any fun it => it.guid = guid then
    (db, none)
  else
    ({ db with
        items := db.items ++
          [{ id := db.nextItemId, feedId := feed_id, guid := guid,
             title := title, url := url, summary := summary,
             publishedDate := published_date }],
        nextItemId := db.nextItemId + 1 },
     some db.nextItemId)

/-- Database function `get_item_by_id(item_id)`: the item row joined with its
feed's name (`JOIN feeds ON i.feed_id = f.id`), so an item whose feed row is
missing yields no result. -/
def get_item_by_id (db : Db) (item_id : Nat) : Option (Item × Option String) :=
  match db.items.find? fun it => it.id = item_id with
  | none => none
  | some it =>
      match db.feeds.find? fun f => f.id = it.feedId with
      | none => none
      | some f => some (it, f.name)

/-- Database function `update_item_status(item_id, status, triaged_by)`: sets
status, triaged_at (to the current time) and triaged_by on the row. -/
def update_item_status (db : Db) (item_id : Nat) (status : String)
    (triaged_by : Option String) (now : Nat) : Db :=
  { db with items := db.items.map fun it =>
      if it.id = item_id then
        { it with status := status, triagedAt := some now,
                  triagedBy := triaged_by }
      else it }

/-- Database function `clear_digest_items()`: `UPDATE items SET status =
'archived' WHERE status = 'digested'`. -/
def clear_digest_items (db : Db) : Db :=
  { db with items := db.items.map fun it =>
      if it.status = "digested" then { it with status := "archived" } else it }

/-- Database function `add_to_webhook_queue(item_id, payload)`: inserts a row
with the table defaults attempts = 0 and status = 'pending', returning the new
row id. -/
def add_to_webhook_queue (db : Db) (item_id : Nat) (payload : DiscordPayload) :
    Db × Nat :=
  ({ db with
      webhookQueue := db.webhookQueue ++
        [{ id := db.nextWebhookId, itemId := item_id, payload := payload,
           createdAt := db.nextCreatedAt }],
      nextWebhookId := db.nextWebhookId + 1,
      nextCreatedAt := db.nextCreatedAt + 1 },
   db.nextWebhookId)

/-- Webhook handler `queue_webhook(item_id, triaged_by)`: looks the item up
(raising `ValueError`, rendered as `Except.error`, when absent), builds the
Discord payload — the description is the item's summary, truncated to its
first 500 characters followed by "..." when longer than 500 characters — and
enqueues it, returning the new webhook id. -/
def queue_webhook (db : Db) (item_id : Nat) (triaged_by : String) (now : Nat) :
    Except String (Db × Nat) :=
  match get_item_by_id db item_id with
  | none => .error ("Item " ++ toString item_id ++ " not found")
  | some (item, feedName) =>
      let summary_text :=
        if item.summary.length > 500 then pySlice item.summary 500 ++ "..."
        else item.summary
      let payload : DiscordPayload :=
        { title := item.title, url := item.url, description := summary_text,
          sourceName := feedName, triagedBy := triaged_by, timestamp := now }
      let (db', webhook_id) := add_to_webhook_queue db item_id payload
      .ok (db', webhook_id)

/-- Response of a successful triage request. -/
structure TriageResponse where
  message : String
  webhookId : Option Nat := none
  triagedBy : String
  deriving Repr, DecidableEq

/-- Endpoint `triage_item(item_id, action, user)` from `main.py`: rejects an
action outside {alert, digest, skip} with HTTP 400 and a missing item with
HTTP 404, then updates the item's status to alerted/digested/skipped according
to the action — the item's current status is not consulted — and for `alert`
additionally enqueues a webhook via `queue_webhook`. A `ValueError` escaping
`queue_webhook` is rendered as HTTP 500. Audit logging is not modelled. -/
def triage_item (db : Db) (item_id : Nat) (action : String)
    (username : String) (now : Nat) : Except (Nat × String) (Db × TriageResponse) :=
  if action ≠ "alert" ∧ action ≠ "digest" ∧ action ≠ "skip" then
    .error (400, "Invalid action")
  else
    match get_item_by_id db item_id with
    | none => .error (404, "Item not found")
    | some _ =>
        if action = "alert" then
          let db1 := update_item_status db item_id "alerted" (some username) now
          match queue_webhook db1 item_id username now with
          | .error e => .error (500, e)
          | .ok (db2, webhook_id) =>
              .ok (db2, { message := "Item marked for immediate alert",
                          webhookId := some webhook_id, triagedBy := username })
        else if action = "digest" then
          .ok (update_item_status db item_id "digested" (some username) now,
               { message := "Item added to daily digest", triagedBy := username })
        else
          .ok (update_item_status db item_id "skipped" (some username) now,
               { message := "Item skipped", triagedBy := username })

/-- Endpoint `undo_triage(item_id, user)` from `main.py`: rejects a missing
item with HTTP 404 and an already-pending item with HTTP 400, otherwise sets
the item back to pending with no attribution. -/
def undo_triage (db : Db) (item_id : Nat) (now : Nat) :
    Except (Nat × String) (Db × String) :=
  match get_item_by_id db item_id with
  | none => .error (404, "Item not found")
  | some (item, _) =>
      if item.status = "pending" then
        .error (400, "Item is already pending")
      else
        .ok (update_item_status db item_id "pending" none now,
             "Item restored to pending")

/-- Entry of a parsed syndication feed as `feedparser` hands it to
`fetch_single_feed`: each field is absent when the entry lacks the key. The
resolved published timestamp is supplied by a date-parsing oracle standing for
`parse_published_date`. -/
structure Entry where
  id : Option String := none
  link : Option String := none
  title : Option String := none
  summary : Option String := none
  description : Option String := none
  deriving Repr, DecidableEq

/-- Result of `feedparser.parse` on the response body. -/
structure ParsedFeed where
  bozo : Bool
  bozoException : String := "Parse error"
  entries : List Entry
  deriving Repr, DecidableEq

/-- Outcome of the HTTP GET of a feed: a body that parses to `ParsedFeed`,
an `httpx.TimeoutException`, or any other exception (including non-2xx via
`raise_for_status`) with its message. -/
inductive FetchOutcome where
  | content (parsed : ParsedFeed)
  | timeout
  | error (msg : String)
  deriving Repr, DecidableEq

/-- Per-feed fetch summary dict returned by `fetch_single_feed`. -/
structure FetchResult where
  feedId : Nat
  feedName : String
  itemsAdded : Nat
  itemsProcessed : Option Nat := none
  error : Option String
  deriving Repr, DecidableEq

/-- Body of the `for entry in parsed.entries[:MAX_ITEMS_PER_FEED]` loop of
`fetch_single_feed`, folded over the entries with accumulator
(db, items_added, items_processed): derives the guid by Python truthiness
(entry id, else link, else the synthetic `feedid_index` string), extracts
title/url/summary, sanitizes (oracle `sanitize` standing for
`sanitize_html`/bleach) and truncates a summary beyond 2000 characters to its
first 1997 characters plus "...", resolves the published date via the
`parseDate` oracle, and counts the entry as added exactly when `add_item`
returns a row id. -/
def processEntry (sanitize : String → String) (parseDate : Entry → Nat)
    (feed_id : Nat) (acc : Db × Nat × Nat) (entry : Entry) : Db × Nat × Nat :=
  let (db, items_added, items_processed) := acc
  let items_processed := items_processed + 1
  let guid := pyOr entry.id (pyOr entry.link
    (toString feed_id ++ "_" ++ toString items_processed))
  let title := entry.title.getD "Untitled"
  let url := entry.link.getD ""
  let summary0 :=
    match entry.summary with
    | some s => s
    | none => entry.description.getD ""
  let summary :=
    if summary0 ≠ "" then
      let s := sanitize summary0
      if s.length > 2000 then pySlice s 1997 ++ "..." else s
    else summary0
  let published_date := parseDate entry
  match add_item db feed_id guid title url summary (some published_date) with
  | (db', some _) => (db', items_added + 1, items_processed)
  | (db', none) => (db', items_added, items_processed)

/-- Feed fetcher `fetch_single_feed(feed, client)` from `feed_fetcher.py`:
issues `client.get(feed_url, timeout=FEED_TIMEOUT_SECONDS,
follow_redirects=True)` — recorded as the head of the returned event trace —
then on timeout or any other error records the feed's last error and reports
zero items; on content whose parse is bozo with no entries likewise; otherwise
processes up to `MAX_ITEMS_PER_FEED` entries via `processEntry` and clears the
feed's error. No URL validation is performed anywhere in the function. -/
def fetch_single_feed (cfg : Settings) (sanitize : String → String)
    (parseDate : Entry → Nat) (feed : Feed) (response : FetchOutcome)
    (db : Db) (now : Nat) : Db × FetchResult × List NetEvent :=
  let feed_name := pyOr feed.name feed.url
  let events := [NetEvent.get feed.url cfg.FEED_TIMEOUT_SECONDS true]
  match response with
  | .timeout =>
      let error_msg := "Timeout after " ++ toString cfg.FEED_TIMEOUT_SECONDS ++ "s"
      (update_feed_status db feed.id now (some error_msg),
       { feedId := feed.id, feedName := feed_name, itemsAdded := 0,
         error := some error_msg }, events)
  | .error msg =>
      (update_feed_status db feed.id now (some msg),
       { feedId := feed.id, feedName := feed_name, itemsAdded := 0,
         error := some msg }, events)
  | .content parsed =>
      if parsed.bozo ∧ parsed.entries = [] then
        (update_feed_status db feed.id now (some parsed.bozoException),
         { feedId := feed.id, feedName := feed_name, itemsAdded := 0,
           error := some parsed.bozoException }, events)
      else
        let (db1, items_added, items_processed) :=
          (parsed.entries.take cfg.MAX_ITEMS_PER_FEED).foldl
            (processEntry sanitize parseDate feed.id) (db, 0, 0)
        (update_feed_status db1 feed.id now none,
         { feedId := feed.id, feedName := feed_name,
           itemsAdded := items_added, itemsProcessed := some items_processed,
           error := none }, events)

/-- Address object returned by `ipaddress.ip_address` in `url_validator.py`,
reduced to the six classification predicates `is_private_ip` reads. The
`ValueError` branch of the source handles strings that are not IP addresses;
`socket.getaddrinfo` only yields address strings, so every resolved address is
represented by this record. -/
structure IpAddress where
  isPrivate : Bool
  isLoopback : Bool
  isLinkLocal : Bool
  isMulticast : Bool
  isReserved : Bool
  isUnspecified : Bool
  deriving Repr, DecidableEq

/-- Validator helper `is_private_ip(ip_str)` from `url_validator.py`: true
when the address is private, loopback, link-local, multicast, reserved or
unspecified. -/
def is_private_ip (ip : IpAddress) : Bool :=
  ip.isPrivate || ip.isLoopback || ip.isLinkLocal || ip.isMulticast ||
  ip.isReserved || ip.isUnspecified

/-- Components of `urllib.parse.urlparse` that `validate_url` reads: the
scheme, the netloc, and the hostname (already lowercased and without the
port, possibly absent). -/
structure ParsedUrl where
  scheme : String
  netloc : String
  hostname : Option String
  deriving Repr, DecidableEq

/-- Outcome of `socket.getaddrinfo(hostname, None)`: a list of resolved
addresses, a `socket.gaierror`, or any other exception (which the source only
logs before continuing). -/
inductive ResolveResult where
  | ok (addrs : List IpAddress)
  | gaierror (msg : String)
  | otherError (msg : String)
  deriving Repr, DecidableEq

/-- Localhost alias set from `validate_url`. -/
def localhost_names : List String :=
  ["localhost", "127.0.0.1", "::1", "0.0.0.0", "127.0.0.0", "0",
   "localhost.localdomain"]

/-- Validator `validate_url(url, purpose)` from `url_validator.py`, with
`urlparse` and DNS resolution supplied as oracle functions `parse` and
`resolve`. In source order: reject an empty URL, strip it, parse it, reject a
scheme other than http/https, reject an empty netloc, reject a missing or
empty hostname, reject a lowercased hostname in the localhost alias set, then
resolve the hostname — a `gaierror` rejects, any other resolution exception is
logged and skipped, and any resolved address classified by `is_private_ip`
rejects. Otherwise the stripped URL is returned. -/
def validate_url (parse : String → ParsedUrl) (resolve : String → ResolveResult)
    (url : String) (purpose : String) : Except String String :=
  if url = "" then .error "URL must be a non-empty string"
  else
    let url := url.trim
    let parsed := parse url
    if parsed.scheme ≠ "http" ∧ parsed.scheme ≠ "https" then
      .error ("Invalid URL scheme. Only http and https are allowed")
    else if parsed.netloc = "" then .error "URL must have a hostname"
    else
      match parsed.hostname with
      | none => .error "URL must have a valid hostname"
      | some hostname =>
          if hostname = "" then .error "URL must have a valid hostname"
          else if localhost_names.contains hostname.toLower then
            .error ("Access to localhost is not allowed for " ++ purpose ++ " URLs")
          else
            match resolve hostname with
            | .gaierror msg =>
                .error ("Cannot resolve hostname: " ++ msg)
            | .otherError _ => .ok url
            | .ok addrs =>
                match addrs.find? is_private_ip with
                | some _ =>
                    .error ("URL resolves to private/reserved IP address. " ++
                      "Access to internal networks is not allowed for " ++
                      purpose ++ " URLs")
                | none => .ok url

section ConcreteInputs

/-- Notification payload used to populate concrete webhook jobs. -/
def exPayload : DiscordPayload :=
  { title := "t", url := "http://item.example/a", description := "d",
    sourceName := some "F", triagedBy := "amy", timestamp := 0 }

/-- Fresh pending webhook job used in concrete drain runs. -/
def exJob : WebhookJob :=
  { id := 1, itemId := 1, payload := exPayload, createdAt := 0 }

/-- Settings with a configured delivery endpoint and the default retry count. -/
def cfgHook : Settings := { WEBHOOK_URL := some "https://hooks.example/h" }

/-- Settings with a configured delivery endpoint and maximum attempt count 2. -/
def cfgHook2 : Settings :=
  { WEBHOOK_URL := some "https://hooks.example/h", WEBHOOK_RETRY_COUNT := 2 }

/-- Delivery oracle on which every POST times out. -/
def alwaysTimeout : Nat → Nat → SendOutcome := fun _ _ => .timeout

/-- Concrete feed rows. -/
def feedEx : Feed := { id := 1, url := "http://feeds.example/rss", name := some "F" }

/-- Second concrete feed row, used for a separate fetch run. -/
def feedEx2 : Feed := { id := 2, url := "http://feeds2.example/rss", name := some "G" }

/-- Item already triaged to `alerted`, for exercising re-triage. -/
def itemAlerted : Item :=
  { id := 1, feedId := 1, guid := "g1", title := "t1",
    url := "http://item.example/a", summary := "s1", status := "alerted" }

/-- Database holding `feedEx` and the already-alerted item. -/
def dbAlerted : Db :=
  { feeds := [feedEx], items := [itemAlerted], nextItemId := 2 }

/-- Summary of 501 characters, one past the 500-character notification cap. -/
def longSummary : String := String.mk (List.replicate 501 'a')

/-- Pending item whose summary is 501 characters long. -/
def itemLong : Item :=
  { id := 1, feedId := 1, guid := "g2", title := "t2",
    url := "http://item.example/b", summary := longSummary }

/-- Database holding `feedEx` and the long-summary item. -/
def dbLong : Db :=
  { feeds := [feedEx], items := [itemLong], nextItemId := 2 }

/-- Parse oracle returning a fixed http URL with hostname internal.example. -/
def parseInternal : String → ParsedUrl :=
  fun _ => { scheme := "http", netloc := "internal.example",
             hostname := some "internal.example" }

/-- Address with only the private flag set. -/
def privAddr : IpAddress :=
  { isPrivate := true, isLoopback := false, isLinkLocal := false,
    isMulticast := false, isReserved := false, isUnspecified := false }

/-- Resolver oracle on which every hostname resolves to `privAddr`. -/
def resolvePrivate : String → ResolveResult := fun _ => .ok [privAddr]

end ConcreteInputs

/-- Projection used by the transition theorems: the status column of the item
row with the given id. -/
def itemStatus (db : Db) (item_id : Nat) : Option String :=
  (db.items.find? fun it => it.id = item_id).map Item.status

/-- Status written by `triage_item` for each accepted action. -/
def triageTarget (action : String) : String :=
  if action = "alert" then "alerted"
  else if action = "digest" then "digested"
  else "skipped"

theorem find?_map_update_item (items : List Item) (item_id : Nat)
    (st : String) (tb : Option String) (now : Nat) :
    (items.map fun it =>
      if it.id = item_id then
        { it with status := st, triagedAt := some now, triagedBy := tb }
      else it).find? (fun it => it.id = item_id)
      = (items.find? fun it => it.id = item_id).map fun it =>
          { it with status := st, triagedAt := some now, triagedBy := tb } := by
  induction items with
  | nil => rfl
  | cons a l ih =>
    by_cases h : a.id = item_id
    · simp [List.find?_cons, h]
    · simp [List.find?_cons, h, ih]

theorem find?_map_clear_digest (items : List Item) (item_id : Nat) :
    (items.map fun it =>
      if it.status = "digested" then { it with status := "archived" } else it
      ).find? (fun it => it.id = item_id)
      = (items.find? fun it => it.id = item_id).map fun it =>
          if it.status = "digested" then { it with status := "archived" } else it := by
  induction items with
  | nil => rfl
  | cons a l ih =>
    by_cases h : a.id = item_id
    · by_cases hs : a.status = "digested" <;> simp [List.find?_cons, h, hs]
    · by_cases hs : a.status = "digested" <;> simp [List.find?_cons, h, hs, ih]

theorem get_item_by_id_after_update (db : Db) (item_id : Nat) (st : String)
    (tb : Option String) (now : Nat) (item : Item) (fn : Option String)
    (h : get_item_by_id db item_id = some (item, fn)) :
    get_item_by_id (update_item_status db item_id st tb now) item_id
      = some ({ item with status := st, triagedAt := some now, triagedBy := tb }, fn) := by
  unfold get_item_by_id at h ⊢
  unfold update_item_status
  rw [find?_map_update_item]
  cases hi : db.items.find? fun it => it.id = item_id with
  | none => rw [hi] at h; cases h
  | some it =>
    rw [hi] at h
    cases hf : db.feeds.find? fun f => f.id = it.feedId with
    | none => simp only [hf] at h; exact Option.noConfusion h
    | some f =>
      simp only [hf, Option.some.injEq, Prod.mk.injEq] at h
      obtain ⟨h1, h2⟩ := h
      subst h1; subst h2
      simp [hf]

theorem find?_map_update_webhook (queue : List WebhookJob) (webhook_id : Nat)
    (st : String) (err : Option String) (now : Nat) :
    (update_webhook_status queue webhook_id st err now).find?
        (fun k => k.id = webhook_id)
      = (queue.find? fun k => k.id = webhook_id).map fun k =>
          { k with
            status := st, attempts := k.attempts + 1,
            lastAttempt := some now, errorMessage := err } := by
  unfold update_webhook_status
  induction queue with
  | nil => rfl
  | cons a l ih =>
    by_cases h : a.id = webhook_id
    · simp [List.find?_cons, h]
    · simp [List.find?_cons, h, ih]

theorem mem_insertByCreatedAt (a j : WebhookJob) (l : List WebhookJob) :
    a ∈ insertByCreatedAt j l ↔ a = j ∨ a ∈ l := by
  induction l with
  | nil => simp [insertByCreatedAt]
  | cons k ks ih =>
    by_cases h : j.createdAt ≤ k.createdAt
    · simp [insertByCreatedAt, h]
    · simp only [insertByCreatedAt, if_neg h, List.mem_cons, ih]
      tauto

theorem mem_sortByCreatedAt (a : WebhookJob) (l : List WebhookJob) :
    a ∈ sortByCreatedAt l ↔ a ∈ l := by
  induction l with
  | nil => simp [sortByCreatedAt]
  | cons k ks ih =>
    simp only [sortByCreatedAt, List.foldr_cons, List.mem_cons]
    rw [show ks.foldr insertByCreatedAt [] = sortByCreatedAt ks from rfl] at *
    rw [mem_insertByCreatedAt, ih]

/-- C5 (amended): the pulled batch consists exactly of jobs with status
pending and attempt count below the hardcoded bound 3 — which coincides with
the spec's eligibility predicate exactly when the configured maximum is its
default value 3 — and the drain loop processes one job per pulled entry. -/
theorem pending_pull_characterization :
    (∀ cfg : Settings, cfg.WEBHOOK_RETRY_COUNT = 3 →
      ∀ (queue : List WebhookJob) (limit : Nat),
        get_pending_webhooks queue limit
          = get_pending_webhooks_specModel cfg queue limit) ∧
    (∀ (queue : List WebhookJob) (limit : Nat) (j : WebhookJob),
      j ∈ get_pending_webhooks queue limit →
        j.status = "pending" ∧ j.attempts < 3) ∧
    (∀ (cfg : Settings) (outcome : Nat → Nat → SendOutcome)
        (queue : List WebhookJob) (now : Nat),
      (process_webhook_queue cfg outcome queue now).2.processed
        = (get_pending_webhooks queue 20).length) := by
  refine ⟨?_, ?_, ?_⟩
  · intro cfg h queue limit
    unfold get_pending_webhooks get_pending_webhooks_specModel
    rw [h]
  · intro queue limit j hmem
    have h1 : j ∈ sortByCreatedAt (queue.filter fun k =>
        k.status = "pending" ∧ k.attempts < 3) :=
      List.take_subset _ _ hmem
    have h2 := (mem_sortByCreatedAt _ _).mp h1
    have h3 := List.mem_filter.mp h2
    simpa using h3.2
  · intro cfg outcome queue now
    unfold process_webhook_queue
    cases hp : get_pending_webhooks queue 20 with
    | nil => simp
    | cons a l => simp

/-- Witness for C5 at a concrete configuration and queue. -/
theorem pending_pull_characterization_witness :
    get_pending_webhooks [exJob] 20
      = get_pending_webhooks_specModel cfgHook [exJob] 20 ∧
    (exJob.status = "pending" ∧ exJob.attempts < 3) ∧
    (process_webhook_queue cfgHook alwaysTimeout [exJob] 1).2.processed
      = (get_pending_webhooks [exJob] 20).length := by
  have h := pending_pull_characterization
  exact ⟨h.1 cfgHook rfl [exJob] 20,
         h.2.1 [exJob] 20 exJob (by decide),
         h.2.2 cfgHook alwaysTimeout [exJob] 1⟩

/-- C8: inserting a feed entry whose derived guid is already present leaves
the items table unchanged, signals no error to the caller (the duplicate-guid
IntegrityError is caught inside `add_item` and rendered as the `none`
result), and the fetch loop counts such an entry as processed but not added. -/
theorem duplicate_guid_noop (db : Db) (fid : Nat)
    (guid title url summary : String) (pd : Option Nat)
    (sanitize : String → String) (parseDate : Entry → Nat) (entry : Entry)
    (items_added items_processed : Nat)
    (hdup : ∃ it ∈ db.items, it.guid = guid)
    (hdup2 : ∃ it ∈ db.items, it.guid =
      pyOr entry.id (pyOr entry.link
        (toString fid ++ "_" ++ toString (items_processed + 1)))) :
    add_item db fid guid title url summary pd = (db, none) ∧
    processEntry sanitize parseDate fid (db, items_added, items_processed) entry
      = (db, items_added, items_processed + 1) := by
  have hany : (db.items.any fun it => it.guid = guid) = true := by
    rw [List.any_eq_true]
    simpa using hdup
  have hany2 : (db.items.any fun it => it.guid =
      pyOr entry.id (pyOr entry.link
        (toString fid ++ "_" ++ toString (items_processed + 1)))) = true := by
    rw [List.any_eq_true]
    simpa using hdup2
  constructor
  · unfold add_item
    rw [if_pos hany]
  · unfold processEntry add_item
    simp only [if_pos hany2]

/-- Witness for C8: re-ingesting an entry carrying the guid of the item
already stored in `dbAlerted`. -/
theorem duplicate_guid_noop_witness :
    add_item dbAlerted 1 "g1" "t" "u" "s" none = (dbAlerted, none) ∧
    processEntry (fun s => s) (fun _ => 0) 1 (dbAlerted, 0, 0)
        { id := some "g1" } = (dbAlerted, 0, 1) := by
  have h := duplicate_guid_noop dbAlerted 1 "g1" "t" "u" "s" none
    (fun s => s) (fun _ => 0) { id := some "g1" } 0 0
    ⟨itemAlerted, by decide, by decide⟩ ⟨itemAlerted, by decide, by decide⟩
  exact h

/-- C10: every `update_webhook_status` call increments the attempt count of
the addressed job by exactly one, whatever status it writes; in particular a
job with attempt count 0 processed while no delivery endpoint is configured
is marked skipped with attempt count 1, no POST being issued. -/
theorem update_status_always_increments (queue : List WebhookJob)
    (webhook_id : Nat) (status : String) (err : Option String) (now : Nat)
    (j : WebhookJob) (cfg : Settings) (outcome : SendOutcome)
    (hfind : queue.find? (fun k => k.id = webhook_id) = some j)
    (hnourl : cfg.WEBHOOK_URL = none) :
    (update_webhook_status queue webhook_id status err now).find?
        (fun k => k.id = webhook_id)
      = some { j with
               status := status, attempts := j.attempts + 1,
               lastAttempt := some now, errorMessage := err } ∧
    (send_webhook cfg outcome queue webhook_id j.attempts now).1.find?
        (fun k => k.id = webhook_id)
      = some { j with
               status := "skipped", attempts := j.attempts + 1,
               lastAttempt := some now,
               errorMessage := some "WEBHOOK_URL not configured" } ∧
    (send_webhook cfg outcome queue webhook_id j.attempts now).2.1 = false ∧
    (send_webhook cfg outcome queue webhook_id j.attempts now).2.2 = [] := by
  refine ⟨?_, ?_, ?_, ?_⟩
  · rw [find?_map_update_webhook, hfind]
    rfl
  · unfold send_webhook
    rw [hnourl]
    rw [find?_map_update_webhook, hfind]
    rfl
  · unfold send_webhook
    rw [hnourl]
  · unfold send_webhook
    rw [hnourl]

/-- Witness for C10 at a concrete queue and the default (endpoint-less)
settings. -/
theorem update_status_always_increments_witness :
    (update_webhook_status [exJob] 1 "sent" none 4).find?
        (fun k => k.id = 1)
      = some { exJob with
               status := "sent", attempts := 1,
               lastAttempt := some 4, errorMessage := none } ∧
    (send_webhook ({} : Settings) .success [exJob] 1 exJob.attempts 4).1.find?
        (fun k => k.id = 1)
      = some { exJob with
               status := "skipped", attempts := 1,
               lastAttempt := some 4,
               errorMessage := some "WEBHOOK_URL not configured" } ∧
    (send_webhook ({} : Settings) .success [exJob] 1 exJob.attempts 4).2.1 = false ∧
    (send_webhook ({} : Settings) .success [exJob] 1 exJob.attempts 4).2.2 = [] := by
  exact update_status_always_increments [exJob] 1 "sent" none 4 exJob
    ({} : Settings) .success (by decide) rfl

theorem items_find?_of_get_item_by_id (db : Db) (item_id : Nat) (item : Item)
    (fn : Option String) (h : get_item_by_id db item_id = some (item, fn)) :
    db.items.find? (fun it => it.id = item_id) = some item := by
  unfold get_item_by_id at h
  cases hi : db.items.find? fun it => it.id = item_id with
  | none => rw [hi] at h; cases h
  | some it =>
    rw [hi] at h
    cases hf : db.feeds.find? fun f => f.id = it.feedId with
    | none => simp only [hf] at h; exact Option.noConfusion h
    | some f =>
      simp only [hf, Option.some.injEq, Prod.mk.injEq] at h
      rw [h.1]

theorem itemStatus_update (db : Db) (item_id : Nat) (st : String)
    (tb : Option String) (now : Nat) (item : Item)
    (hfind : db.items.find? (fun it => it.id = item_id) = some item) :
    itemStatus (update_item_status db item_id st tb now) item_id = some st := by
  unfold itemStatus update_item_status
  rw [find?_map_update_item, hfind]
  rfl

/-- C2 (amended): `triage_item` accepts any existing item whatever its
current status — the pending-status precondition is not checked — and writes
the action's target status; `undo_triage` rejects a pending item with HTTP
400 and otherwise resets the item to pending; the batch archival rewrites a
digested item to archived and leaves any other status unchanged. -/
theorem triage_transitions_characterization (db : Db) (item_id : Nat)
    (user : String) (now : Nat) (item : Item) (fn : Option String)
    (hfound : get_item_by_id db item_id = some (item, fn)) :
    (∀ action, action = "alert" ∨ action = "digest" ∨ action = "skip" →
      ∃ res, triage_item db item_id action user now = .ok res ∧
        itemStatus res.1 item_id = some (triageTarget action)) ∧
    (item.status = "pending" →
      undo_triage db item_id now = .error (400, "Item is already pending")) ∧
    (item.status ≠ "pending" →
      undo_triage db item_id now =
        .ok (update_item_status db item_id "pending" none now,
          "Item restored to pending")) ∧
    itemStatus (clear_digest_items db) item_id =
      some (if item.status = "digested" then "archived" else item.status) := by
  have hfind := items_find?_of_get_item_by_id db item_id item fn hfound
  refine ⟨?_, ?_, ?_, ?_⟩
  · rintro action (rfl | rfl | rfl)
    · have h1 := get_item_by_id_after_update db item_id "alerted" (some user)
        now item fn hfound
      have halert : triage_item db item_id "alert" user now
          = .ok ((add_to_webhook_queue
              (update_item_status db item_id "alerted" (some user) now) item_id
              { title := item.title, url := item.url,
                description := if item.summary.length > 500 then
                  pySlice item.summary 500 ++ "..." else item.summary,
                sourceName := fn, triagedBy := user, timestamp := now }).1,
              { message := "Item marked for immediate alert",
                webhookId := some db.nextWebhookId, triagedBy := user }) := by
        unfold triage_item queue_webhook
        rw [hfound]
        dsimp only
        rw [h1]
        rfl
      exact ⟨_, halert,
        itemStatus_update db item_id "alerted" (some user) now item hfind⟩
    · have hd : triage_item db item_id "digest" user now
          = .ok (update_item_status db item_id "digested" (some user) now,
              { message := "Item added to daily digest", triagedBy := user }) := by
        unfold triage_item
        rw [hfound]
        rfl
      exact ⟨_, hd,
        itemStatus_update db item_id "digested" (some user) now item hfind⟩
    · have hsk : triage_item db item_id "skip" user now
          = .ok (update_item_status db item_id "skipped" (some user) now,
              { message := "Item skipped", triagedBy := user }) := by
        unfold triage_item
        rw [hfound]
        rfl
      exact ⟨_, hsk,
        itemStatus_update db item_id "skipped" (some user) now item hfind⟩
  · intro hp
    simp only [undo_triage, hfound]
    rw [if_pos hp]
  · intro hp
    simp only [undo_triage, hfound]
    rw [if_neg hp]
  · unfold itemStatus clear_digest_items
    rw [find?_map_clear_digest, hfind]
    by_cases hs : item.status = "digested" <;> simp [hs]

/-- Witness for C2 on the concrete database whose only item is already
alerted. -/
theorem triage_transitions_characterization_witness :
    (∃ res, triage_item dbAlerted 1 "skip" "amy" 9 = .ok res ∧
      itemStatus res.1 1 = some (triageTarget "skip")) ∧
    undo_triage dbAlerted 1 9 =
      .ok (update_item_status dbAlerted 1 "pending" none 9,
        "Item restored to pending") ∧
    itemStatus (clear_digest_items dbAlerted) 1 = some "alerted" := by
  have h := triage_transitions_characterization dbAlerted 1 "amy" 9
    itemAlerted (some "F") rfl
  exact ⟨h.1 "skip" (Or.inr (Or.inr rfl)), h.2.2.1 (by decide),
    h.2.2.2.trans (by decide)⟩

/-- C9: triaging an existing item with the alert action succeeds and appends
exactly one new row to the webhook queue, created with attempt count 0 and
status pending and owned by the triaged item, and the response reports that
row's id. -/
theorem alert_enqueues_single_pending_job (db : Db) (item_id : Nat)
    (username : String) (now : Nat) (item : Item) (fn : Option String)
    (hfound : get_item_by_id db item_id = some (item, fn)) :
    ∃ db2 resp job,
      triage_item db item_id "alert" username now = .ok (db2, resp) ∧
      db2.webhookQueue = db.webhookQueue ++ [job] ∧
      job.attempts = 0 ∧ job.status = "pending" ∧ job.itemId = item_id ∧
      resp.webhookId = some job.id := by
  have h1 := get_item_by_id_after_update db item_id "alerted" (some username)
    now item fn hfound
  have halert : triage_item db item_id "alert" username now
      = .ok ((add_to_webhook_queue
          (update_item_status db item_id "alerted" (some username) now) item_id
          { title := item.title, url := item.url,
            description := if item.summary.length > 500 then
              pySlice item.summary 500 ++ "..." else item.summary,
            sourceName := fn, triagedBy := username, timestamp := now }).1,
          { message := "Item marked for immediate alert",
            webhookId := some db.nextWebhookId, triagedBy := username }) := by
    unfold triage_item queue_webhook
    rw [hfound]
    dsimp only
    rw [h1]
    rfl
  exact ⟨_, _, _, halert, rfl, rfl, rfl, rfl, rfl⟩

/-- Witness for C9 on the concrete single-item database. -/
theorem alert_enqueues_single_pending_job_witness :
    ∃ db2 resp job,
      triage_item dbAlerted 1 "alert" "amy" 9 = .ok (db2, resp) ∧
      db2.webhookQueue = dbAlerted.webhookQueue ++ [job] ∧
      job.attempts = 0 ∧ job.status = "pending" ∧ job.itemId = 1 ∧
      resp.webhookId = some job.id :=
  alert_enqueues_single_pending_job dbAlerted 1 "amy" 9 itemAlerted
    (some "F") rfl

/-- C6 (amended): the notification body built by `queue_webhook` equals the
item's sanitized summary when that summary is at most 500 characters, and
otherwise consists of the first 500 characters of the summary followed by the
three-character marker "...", for a total of 503 characters — exceeding 500. -/
theorem notification_body_truncation (db : Db) (item_id : Nat)
    (triaged_by : String) (now : Nat) (item : Item) (fn : Option String)
    (hfound : get_item_by_id db item_id = some (item, fn)) :
    ∃ db' wid job,
      queue_webhook db item_id triaged_by now = .ok (db', wid) ∧
      db'.webhookQueue = db.webhookQueue ++ [job] ∧
      (item.summary.length ≤ 500 → job.payload.description = item.summary) ∧
      (item.summary.length > 500 →
        job.payload.description = pySlice item.summary 500 ++ "..." ∧
        job.payload.description.length = 503) := by
  unfold queue_webhook
  rw [hfound]
  dsimp only
  by_cases hlen : item.summary.length > 500
  · rw [if_pos hlen]
    refine ⟨_, _, _, rfl, rfl, fun hle => absurd hlen (by omega), fun _ => ⟨rfl, ?_⟩⟩
    have h2 : item.summary.data.length > 500 := hlen
    have hd : (pySlice item.summary 500).length = 500 := by
      show (item.summary.data.take 500).length = 500
      rw [List.length_take]
      omega
    rw [String.length_append, hd]
    rfl
  · rw [if_neg hlen]
    exact ⟨_, _, _, rfl, rfl, fun _ => rfl, fun hgt => absurd hgt hlen⟩

/-- Witness for C6 on the concrete database whose item is already alerted
(summary of length 2, below the cap). -/
theorem notification_body_truncation_witness :
    ∃ db' wid job,
      queue_webhook dbAlerted 1 "amy" 7 = .ok (db', wid) ∧
      db'.webhookQueue = dbAlerted.webhookQueue ++ [job] ∧
      (itemAlerted.summary.length ≤ 500 →
        job.payload.description = itemAlerted.summary) ∧
      (itemAlerted.summary.length > 500 →
        job.payload.description = pySlice itemAlerted.summary 500 ++ "..." ∧
        job.payload.description.length = 503) :=
  notification_body_truncation dbAlerted 1 "amy" 7 itemAlerted (some "F") rfl

/-- C3 (amended): a failed delivery attempt increments the job's attempt
count by one and leaves it pending, unless the batch-read attempt count plus
one has reached the configured maximum, in which case a second update marks
the job failed and increments the count again — so the terminal failing
attempt adds two, leaving a job that failed until exhaustion with attempt
count one above the configured maximum (4 under the default 3). -/
theorem drain_failed_attempt_accounting (cfg : Settings)
    (outcome : Nat → Nat → SendOutcome) (now : Nat) (j : WebhookJob)
    (u : String)
    (hurl : cfg.WEBHOOK_URL = some u)
    (hst : j.status = "pending") (hlt : j.attempts < 3)
    (hfail : outcome j.id j.attempts ≠ .success) :
    ∃ j', (process_webhook_queue cfg outcome [j] now).1 = [j'] ∧
      j'.id = j.id ∧
      (j.attempts + 1 ≥ cfg.WEBHOOK_RETRY_COUNT →
        j'.status = "failed" ∧ j'.attempts = j.attempts + 2) ∧
      (j.attempts + 1 < cfg.WEBHOOK_RETRY_COUNT →
        j'.status = "pending" ∧ j'.attempts = j.attempts + 1) := by
  have hpull : get_pending_webhooks [j] 20 = [j] := by
    simp [get_pending_webhooks, sortByCreatedAt, insertByCreatedAt, hst, hlt,
      List.filter]
  cases ho : outcome j.id j.attempts with
  | success => exact absurd ho hfail
  | timeout =>
      by_cases hge : j.attempts + 1 ≥ cfg.WEBHOOK_RETRY_COUNT
      · refine ⟨{ j with
            status := "failed", attempts := j.attempts + 1 + 1,
            lastAttempt := some now,
            errorMessage := some "Max retries exceeded" }, ?_, rfl,
            fun _ => ⟨rfl, rfl⟩, fun h => ?_⟩
        · simp [process_webhook_queue, hpull, drainStep, send_webhook, hurl,
            ho, update_webhook_status, hge]
        · omega
      · refine ⟨{ j with
            status := "pending", attempts := j.attempts + 1,
            lastAttempt := some now,
            errorMessage := some ("Timeout after " ++
              toString cfg.WEBHOOK_TIMEOUT_SECONDS ++ "s") }, ?_, rfl,
            fun h => ?_, fun _ => ⟨rfl, rfl⟩⟩
        · simp [process_webhook_queue, hpull, drainStep, send_webhook, hurl,
            ho, update_webhook_status, hge]
        · omega
  | httpError code body =>
      by_cases hge : j.attempts + 1 ≥ cfg.WEBHOOK_RETRY_COUNT
      · refine ⟨{ j with
            status := "failed", attempts := j.attempts + 1 + 1,
            lastAttempt := some now,
            errorMessage := some "Max retries exceeded" }, ?_, rfl,
            fun _ => ⟨rfl, rfl⟩, fun h => ?_⟩
        · simp [process_webhook_queue, hpull, drainStep, send_webhook, hurl,
            ho, update_webhook_status, hge]
        · omega
      · refine ⟨{ j with
            status := "pending", attempts := j.attempts + 1,
            lastAttempt := some now,
            errorMessage := some ("HTTP " ++ toString code ++ ": " ++
              pySlice body 200) }, ?_, rfl,
            fun h => ?_, fun _ => ⟨rfl, rfl⟩⟩
        · simp [process_webhook_queue, hpull, drainStep, send_webhook, hurl,
            ho, update_webhook_status, hge]
        · omega
  | otherError msg =>
      by_cases hge : j.attempts + 1 ≥ cfg.WEBHOOK_RETRY_COUNT
      · refine ⟨{ j with
            status := "failed", attempts := j.attempts + 1 + 1,
            lastAttempt := some now,
            errorMessage := some "Max retries exceeded" }, ?_, rfl,
            fun _ => ⟨rfl, rfl⟩, fun h => ?_⟩
        · simp [process_webhook_queue, hpull, drainStep, send_webhook, hurl,
            ho, update_webhook_status, hge]
        · omega
      · refine ⟨{ j with
            status := "pending", attempts := j.attempts + 1,
            lastAttempt := some now,
            errorMessage := some (pySlice msg 500) }, ?_, rfl,
            fun h => ?_, fun _ => ⟨rfl, rfl⟩⟩
        · simp [process_webhook_queue, hpull, drainStep, send_webhook, hurl,
            ho, update_webhook_status, hge]
        · omega

/-- Witness for C3: one drain pass over a fresh always-failing job under the
default configuration. -/
theorem drain_failed_attempt_accounting_witness :
    ∃ j', (process_webhook_queue cfgHook alwaysTimeout [exJob] 1).1 = [j'] ∧
      j'.id = exJob.id ∧
      (exJob.attempts + 1 ≥ cfgHook.WEBHOOK_RETRY_COUNT →
        j'.status = "failed" ∧ j'.attempts = exJob.attempts + 2) ∧
      (exJob.attempts + 1 < cfgHook.WEBHOOK_RETRY_COUNT →
        j'.status = "pending" ∧ j'.attempts = exJob.attempts + 1) :=
  drain_failed_attempt_accounting cfgHook alwaysTimeout 1 exJob
    "https://hooks.example/h" rfl rfl (by decide) (by decide)

/-- C7: for every URL whose hostname resolution succeeds and yields at least
one address classified private/loopback/link-local/multicast/reserved/
unspecified, `validate_url` returns a validation error and never the URL,
for both the http and the https scheme. -/
theorem validate_url_rejects_private_resolution
    (parse : String → ParsedUrl) (resolve : String → ResolveResult)
    (url purpose host : String) (addrs : List IpAddress)
    (hne : url ≠ "")
    (hscheme : (parse url.trim).scheme = "http" ∨ (parse url.trim).scheme = "https")
    (hnetloc : (parse url.trim).netloc ≠ "")
    (hhost : (parse url.trim).hostname = some host)
    (hres : resolve host = .ok addrs)
    (hpriv : ∃ ip ∈ addrs, is_private_ip ip) :
    ∃ msg, validate_url parse resolve url purpose = .error msg := by
  unfold validate_url
  simp only [if_neg hne]
  have hsch : ¬((parse url.trim).scheme ≠ "http" ∧ (parse url.trim).scheme ≠ "https") := by
    rcases hscheme with h | h <;> simp [h]
  simp only [if_neg hsch, if_neg hnetloc, hhost, hres]
  by_cases h0 : host = ""
  · exact ⟨_, if_pos h0⟩
  simp only [if_neg h0]
  by_cases hl : localhost_names.contains host.toLower = true
  · exact ⟨_, if_pos hl⟩
  simp only [if_neg hl]
  have hs : (addrs.find? is_private_ip).isSome := by
    rw [List.find?_isSome]
    exact hpriv
  obtain ⟨ip, hip⟩ := Option.isSome_iff_exists.mp hs
  simp only [hip]
  exact ⟨_, rfl⟩

/-- Witness for C7 at a concrete URL, parser and resolver. -/
theorem validate_url_rejects_private_resolution_witness :
    ∃ msg, validate_url parseInternal resolvePrivate
      "http://internal.example/feed" "feed" = .error msg :=
  validate_url_rejects_private_resolution parseInternal resolvePrivate
    "http://internal.example/feed" "feed" "internal.example" [privAddr]
    (by decide) (Or.inl rfl) (by decide) rfl rfl
    ⟨privAddr, by simp, by decide⟩

/-- C1 (code-bug evidence): on a concrete feed fetch and a concrete webhook
delivery the complete outbound event trace is a single GET respectively a
single POST — no `validateCall` event occurs, so neither destination passes
through the URL validator before the request; the repository's own tests
(`test_imports_url_validator`, `test_webhook_handler_validates` in
`tests/test_security.py`) require both modules to invoke it. -/
theorem outbound_calls_without_validation :
    (fetch_single_feed ({} : Settings) (fun s => s) (fun _ => 0) feedEx
        (.content ⟨false, "Parse error", []⟩) dbAlerted 0).2.2
      = [NetEvent.get "http://feeds.example/rss" 30 true] ∧
    (send_webhook cfgHook .success [exJob] 1 0 5).2.2
      = [NetEvent.post "https://hooks.example/h" 10] := by
  constructor <;> rfl

/-- C4 (code-bug evidence): the GET issued by `fetch_single_feed` carries
`follow_redirects=True`; the repository's own test
(`test_follow_redirects_disabled` in `tests/test_security.py`) requires
`follow_redirects=False`. -/
theorem feed_get_follows_redirects :
    (fetch_single_feed ({} : Settings) (fun s => s) (fun _ => 0) feedEx2
        .timeout dbAlerted 0).2.2
      = [NetEvent.get "http://feeds2.example/rss" 30 true] := by
  rfl

/-- Counterexample to C2: a triage request on an item whose status is
`alerted` (not pending) is accepted and overwrites the status with
`digested`, instead of being rejected without change. -/
theorem triage_nonpending_accepted_cex :
    (triage_item dbAlerted 1 "digest" "amy" 9).toOption.map
        (fun r => r.1.items.map Item.status) = some ["digested"] := by
  rfl

/-- Counterexample to C3: a fresh job that times out on all three drain
iterations under the default configuration ends with status `failed` but
attempt count 4, not 3 — the terminal iteration increments twice (once for
the pending update, once for the failed marking). -/
theorem drain_terminal_double_increment_cex :
    (((process_webhook_queue cfgHook alwaysTimeout
        (process_webhook_queue cfgHook alwaysTimeout
          (process_webhook_queue cfgHook alwaysTimeout [exJob] 1).1 2).1 3).1).map
      fun j => (j.status, j.attempts)) = [("failed", 4)] ∧
    (((process_webhook_queue cfgHook alwaysTimeout
        (process_webhook_queue cfgHook alwaysTimeout
          (process_webhook_queue cfgHook alwaysTimeout [exJob] 1).1 2).1 3).1).map
      fun j => (j.status, j.attempts)) ≠ [("failed", 3)] := by
  constructor
  · rfl
  · decide

/-- Counterexample to C5: with the configured maximum attempt count set to 2,
a pending job with attempt count 2 is still pulled for delivery — the SQL
eligibility filter hardcodes `attempts < 3` — while the spec's eligibility
predicate (attempts below the configured maximum) excludes it. -/
theorem eligibility_ignores_configured_max_cex :
    get_pending_webhooks [{ exJob with attempts := 2 }] 20
      = [{ exJob with attempts := 2 }] ∧
    get_pending_webhooks_specModel cfgHook2 [{ exJob with attempts := 2 }] 20
      = [] := by
  constructor <;> rfl

set_option maxRecDepth 8000 in
/-- Counterexample to C6: for an item whose sanitized summary is 501
characters long, the notification body built by `queue_webhook` is 503
characters (500 kept characters plus the three-character marker), exceeding
the claimed 500-character total. -/
theorem notification_body_exceeds_500_cex :
    (queue_webhook dbLong 1 "amy" 7).toOption.map
        (fun r => r.1.webhookQueue.map fun j => j.payload.description.length)
      = some [503] ∧ ¬ (503 ≤ 500) := by
  constructor
  · rfl
  · decide

end Kairos
